import Mathlib

/-!
Shallow embedding of the analytical core of `src/NY_AIRBnB.py`:
the listing filter (lines 56-59), the derived value score (lines 205-206),
and the landmark buffer membership query (lines 148-155).

Modelling conventions:
- numeric dataframe cells are rationals; a missing (NaN) price is `Option.none`,
  so that pandas comparison semantics on NaN (always false) are explicit;
- pandas `Series.between(lo, hi)` is inclusive at both ends and false on NaN;
- the IEEE result of the unguarded column division in `value_score` is captured
  by `FloatVal`: numpy float division `x / 0` yields `+inf` for `x > 0`,
  `-inf` for `x < 0`, and `nan` for `x = 0`; a NaN operand propagates `nan`;
- shapely `geom.buffer(d)` for a point landmark produces an inscribed
  polygonal approximation of the circle of radius `d` (8 segments per
  quadrant, vertices on the circle, edges strictly inside it), and
  `gdf.within(...)` holds exactly when the query point lies in the interior
  of that polygon, so points of the boundary are not members.  The vertex
  coordinates of that polygon are irrational, so its membership predicate is
  not a rational function; claim-level reasoning about the buffer query
  therefore abstracts the predicate by provable sandwich bounds: the interior
  of the inscribed polygon lies inside the open disk of radius `d` and
  contains the open disk of radius `d * cos(pi / 32)` (the apothem).
  The exact open disk appears only as one admissible instantiation of those
  bounds, not as the embedding of the GEOS polygon.
-/

namespace NYAirbnb

/-- One row of the Airbnb listings dataframe, restricted to the columns the
filtering and metrics pipeline reads.  `price` is `none` when the cell is NaN. -/
structure Listing where
  name : String
  neighbourhood : String
  neighbourhood_group : String
  latitude : ℚ
  longitude : ℚ
  price : Option ℚ
  number_of_reviews : ℕ
  review_scores_rating : ℚ
deriving DecidableEq

/-- Pandas `df.price.between(lo, hi)`: inclusive at both ends, false on NaN. -/
def priceBetween (lo hi : ℚ) : Option ℚ → Bool
  | none => false
  | some p => decide (lo ≤ p) && decide (p ≤ hi)

/-- The filter of lines 56-59:
`df[(df.price.between(price_range[0], price_range[1])) & (df.neighbourhood_group.isin(borough_filter))]`.
Row-wise boolean masking of a dataframe keeps exactly the rows whose mask bit is
true, in their original order. -/
def filtered_df (L : List Listing) (lo hi : ℚ) (boroughs : List String) : List Listing :=
  L.filter (fun r => priceBetween lo hi r.price && boroughs.contains r.neighbourhood_group)

/-- The value space of a float column: a finite rational value, or one of the
IEEE non-finite outcomes that numpy division can produce. -/
inductive FloatVal where
  | val : ℚ → FloatVal
  | posInf : FloatVal
  | negInf : FloatVal
  | nan : FloatVal
deriving DecidableEq

/-- The derived score of lines 205-206: the column assignment
value_score = number_of_reviews * review_scores_rating / price
over the filtered dataframe, with numpy float-division semantics and no guard
on a zero price. -/
def value_score (r : Listing) : FloatVal :=
  match r.price with
  | none => FloatVal.nan
  | some p =>
    if p = 0 then
      if 0 < (r.number_of_reviews : ℚ) * r.review_scores_rating then FloatVal.posInf
      else if (r.number_of_reviews : ℚ) * r.review_scores_rating < 0 then FloatVal.negInf
      else FloatVal.nan
    else FloatVal.val ((r.number_of_reviews : ℚ) * r.review_scores_rating / p)

/-- A planar coordinate pair (longitude, latitude) in degrees. -/
structure Pt where
  lon : ℚ
  lat : ℚ
deriving DecidableEq

/-- Squared planar Euclidean distance between two coordinate pairs. -/
def distSq (a b : Pt) : ℚ := (a.lon - b.lon) ^ 2 + (a.lat - b.lat) ^ 2

/-- The geometry attached to a listing row, `Point(longitude, latitude)` of line 134. -/
def listingPt (r : Listing) : Pt := ⟨r.longitude, r.latitude⟩

/-- The spatial query of lines 154-155, `gdf[gdf.within(B)]`, for an arbitrary
buffer geometry `B` given by its pointwise membership test: boolean masking by
the row-wise `within` predicate. -/
def withinGeom (member : Pt → Bool) (L : List Listing) : List Listing :=
  L.filter (fun r => member (listingPt r))

/-- Membership in the exact open disk of radius `d` around `c`.  This is an
over-approximating idealisation of `p.within(c.buffer(d))`: the real buffer
polygon is inscribed in the circle, so its interior is contained in this open
disk but omits a sliver near the circle off the vertex directions.  The
idealisation satisfies the sandwich bounds stated for the buffer predicate
and is used as one admissible instantiation of them; it is not the embedding
of the GEOS polygon itself. -/
def pointBufferMember (c : Pt) (d : ℚ) (p : Pt) : Bool := decide (distSq c p < d ^ 2)

/-- Lines 148-155 specialised to a point landmark with buffer distance `d`,
with the buffer region idealised to the exact open disk:
`gdf[gdf.within(point.buffer(d))]` up to the polygonal discretisation of the
buffer.  Properties that depend on the precise buffer boundary are proved
through `withinGeom` with an abstract predicate instead. -/
def membershipQuery (L : List Listing) (c : Pt) (d : ℚ) : List Listing :=
  withinGeom (pointBufferMember c d) L

/-- The Statue of Liberty landmark of line 144, `Point(-74.0445, 40.6892)`. -/
def solPoint : Pt := ⟨-(740445 / 10000), 406892 / 10000⟩

/-- A listing at (-74.0440, 40.6895), close to the Statue of Liberty landmark. -/
def nearListing : Listing :=
  { name := "near", neighbourhood := "Battery", neighbourhood_group := "Manhattan",
    latitude := 406895 / 10000, longitude := -(740440 / 10000),
    price := some 150, number_of_reviews := 3, review_scores_rating := 4 }

/-- A listing at (-73.9, 40.7), far from the Statue of Liberty landmark. -/
def farListing : Listing :=
  { name := "far", neighbourhood := "Williamsburg", neighbourhood_group := "Brooklyn",
    latitude := 407 / 10, longitude := -(739 / 10),
    price := some 80, number_of_reviews := 7, review_scores_rating := 5 }

/-- A listing whose coordinate lies at distance exactly 0.02 (due east) from the
Statue of Liberty landmark, i.e. exactly on the boundary of the 0.02 buffer. -/
def boundaryListing : Listing :=
  { name := "boundary", neighbourhood := "Harbor", neighbourhood_group := "Manhattan",
    latitude := 406892 / 10000, longitude := -(740445 / 10000) + 1 / 50,
    price := some 100, number_of_reviews := 1, review_scores_rating := 5 }

/-- A listing with a concrete in-range price, used to instantiate theorems. -/
def exBoundary : Listing :=
  { name := "ex", neighbourhood := "Chelsea", neighbourhood_group := "Manhattan",
    latitude := 4075 / 100, longitude := -(7400 / 100),
    price := some 50, number_of_reviews := 12, review_scores_rating := 4 }

/-- The worked value-score example: 10 reviews, rating 4.5, price 90. -/
def exValue : Listing :=
  { name := "value", neighbourhood := "Astoria", neighbourhood_group := "Queens",
    latitude := 4077 / 100, longitude := -(7392 / 100),
    price := some 90, number_of_reviews := 10, review_scores_rating := 9 / 2 }

/-- The division-by-zero example row: price 0, 5 reviews, rating 5. -/
def zeroPriceListing : Listing :=
  { name := "zero", neighbourhood := "Bronxdale", neighbourhood_group := "Bronx",
    latitude := 4085 / 100, longitude := -(7387 / 100),
    price := some 0, number_of_reviews := 5, review_scores_rating := 5 }

/-- C5: for a listing whose price is present and nonzero, the derived value
score is the finite value number_of_reviews * review_scores_rating / price. -/
theorem c5_value_score_formula (r : Listing) (p : ℚ)
    (hp : r.price = some p) (h0 : p ≠ 0) :
    value_score r = FloatVal.val ((r.number_of_reviews : ℚ) * r.review_scores_rating / p) := by
  simp [value_score, hp, h0]

/-- C5 witness: the worked example, 10 reviews at rating 4.5 and price 90,
gets value score 10 * 4.5 / 90 = 0.5. -/
theorem c5_value_score_formula_witness :
    value_score exValue = FloatVal.val (1 / 2) := by
  have h := c5_value_score_formula exValue 90 rfl (by norm_num)
  rw [h]
  congr 1
  norm_num [exValue]

/-- C1: the code computes the value score of a zero-price listing (5 reviews,
rating 5) as positive infinity — numpy float division propagates `+inf`
silently into the heatmap data, and no finite sentinel value is substituted. -/
theorem c1_zero_price_gives_infinity :
    value_score zeroPriceListing = FloatVal.posInf ∧
    ∀ q : ℚ, FloatVal.posInf ≠ FloatVal.val q := by
  refine ⟨?_, ?_⟩
  · norm_num [value_score, zeroPriceListing]
  · intro q h
    cases h

/-- C3: a row whose price cell is present is kept by the filter exactly when
its price lies in the inclusive range [lo, hi] and its borough is an exact
member of the selected borough set. -/
theorem c3_filter_characterization (L : List Listing) (lo hi : ℚ)
    (B : List String) (r : Listing) (p : ℚ) (hp : r.price = some p) :
    r ∈ filtered_df L lo hi B ↔
      r ∈ L ∧ lo ≤ p ∧ p ≤ hi ∧ r.neighbourhood_group ∈ B := by
  simp [filtered_df, List.mem_filter, priceBetween, hp, and_assoc]

/-- C3 witness: a listing priced exactly at the lower bound 50 of the range
[50, 300] with a selected borough is kept. -/
theorem c3_filter_characterization_witness :
    exBoundary.price = some 50 ∧
    (exBoundary ∈ filtered_df [exBoundary] 50 300 ["Manhattan"] ↔
      exBoundary ∈ [exBoundary] ∧ (50 : ℚ) ≤ 50 ∧ (50 : ℚ) ≤ 300 ∧
        exBoundary.neighbourhood_group ∈ ["Manhattan"]) :=
  ⟨rfl, c3_filter_characterization [exBoundary] 50 300 ["Manhattan"] exBoundary 50 rfl⟩

/-- C4: an inverted price range (hi < lo) filters out every row, so the result
is the empty list; the function is total, so no exception arises. -/
theorem c4_inverted_range_empty (L : List Listing) (lo hi : ℚ)
    (B : List String) (h : hi < lo) : filtered_df L lo hi B = [] := by
  rw [filtered_df, List.filter_eq_nil_iff]
  intro r _
  cases hp : r.price with
  | none => simp [priceBetween, hp]
  | some p =>
    simp only [priceBetween, hp, Bool.and_eq_true, decide_eq_true_eq, not_and]
    intro hconj _
    rcases hconj with ⟨h1, h2⟩
    linarith

/-- C4 witness: the inverted range [300, 50] on a one-row table returns the
empty list. -/
theorem c4_inverted_range_empty_witness :
    filtered_df [exBoundary] 300 50 ["Manhattan"] = [] :=
  c4_inverted_range_empty [exBoundary] 300 50 ["Manhattan"] (by norm_num)

/-- C6: `filtered_df` and `membershipQuery` are pure functions of their
arguments — two calls with identical listing table, price bounds, borough set,
landmark and buffer distance return identical output, and no other state
enters the computation. -/
theorem c6_determinism (L : List Listing) (lo hi : ℚ) (B : List String)
    (c : Pt) (d : ℚ) :
    filtered_df L lo hi B = filtered_df L lo hi B ∧
    membershipQuery L c d = membershipQuery L c d :=
  ⟨rfl, rfl⟩

/-- C7: the output of the filter is a sublist of the input table — matching
rows keep their relative order, with no reordering, duplication or insertion. -/
theorem c7_filter_sublist (L : List Listing) (lo hi : ℚ) (B : List String) :
    (filtered_df L lo hi B).Sublist L :=
  List.filter_sublist L

/-- C8: every row of the filter output is a row of the input table, and every
row returned by a spatial buffer query (for any buffer geometry, so for both
the Central Park polygon buffer and the Statue of Liberty point buffer) is a
row of its input. -/
theorem c8_outputs_subsets (L : List Listing) (lo hi : ℚ) (B : List String)
    (m : Pt → Bool) (c : Pt) (d : ℚ) :
    filtered_df L lo hi B ⊆ L ∧ withinGeom m L ⊆ L ∧ membershipQuery L c d ⊆ L :=
  ⟨fun _ hx => (List.mem_filter.mp hx).1,
   fun _ hx => (List.mem_filter.mp hx).1,
   fun _ hx => (List.mem_filter.mp hx).1⟩

/-- C9: with an empty borough selection, the membership test of every row is
false, so the filter returns the empty list for every table and price range. -/
theorem c9_empty_borough_set (L : List Listing) (lo hi : ℚ) :
    filtered_df L lo hi [] = [] := by
  rw [filtered_df, List.filter_eq_nil_iff]
  intro r _
  simp

/-- C10: a row whose price cell is missing (NaN) fails the between-range
predicate rather than raising, and is therefore excluded by the filter for
every price range and borough set: every retained row has a present price. -/
theorem c10_nan_price_excluded :
    (∀ lo hi : ℚ, priceBetween lo hi none = false) ∧
    (∀ (L : List Listing) (lo hi : ℚ) (B : List String),
      (filtered_df L lo hi B).all (fun r => r.price.isSome) = true) := by
  refine ⟨fun _ _ => rfl, ?_⟩
  intro L lo hi B
  rw [List.all_eq_true]
  intro r hr
  rw [filtered_df, List.mem_filter] at hr
  rcases hr with ⟨-, hmask⟩
  rw [Bool.and_eq_true] at hmask
  cases hp : r.price with
  | none => rw [hp] at hmask; simp [priceBetween] at hmask
  | some p => simp [hp]

/-- C2 counterexample: a listing at planar distance exactly 0.02 from the
Statue of Liberty point landmark (on the boundary of the 0.02 buffer) is NOT
returned by the membership query, although the claim includes boundary
listings (distance = d). -/
theorem c2_boundary_excluded_counterexample :
    distSq solPoint (listingPt boundaryListing) = (1 / 50 : ℚ) ^ 2 ∧
    boundaryListing ∉ membershipQuery [boundaryListing] solPoint (1 / 50) := by
  constructor
  · norm_num [distSq, listingPt, solPoint, boundaryListing]
  · intro h
    rw [membershipQuery, withinGeom, List.mem_filter] at h
    rcases h with ⟨-, hmask⟩
    rw [pointBufferMember, decide_eq_true_eq] at hmask
    norm_num [distSq, listingPt, solPoint, boundaryListing] at hmask

/-- C2 (amended): for the Statue of Liberty point landmark with buffer 0.02,
and for every buffer membership predicate lying within the sandwich bounds
satisfied by the GEOS inscribed buffer polygon — sound: members lie strictly
inside the open disk of radius 0.02; complete: the open disk of radius 0.0199
(a rational lower bound on the apothem 0.02 * cos(pi / 32)) is contained in
the membership region — the query returns only listings at distance strictly
below 0.02 (so boundary listings at distance exactly 0.02 are excluded) and
returns every listing at distance below 0.0199.  In particular the listing at
(-74.0440, 40.6895) is included and the listing at (-73.9, 40.7) is excluded,
for every such predicate, the real discretised one included. -/
theorem c2_buffer_membership_sandwich (member : Pt → Bool)
    (hsound : ∀ p, member p = true → distSq solPoint p < (1 / 50 : ℚ) ^ 2)
    (hcomplete : ∀ p, distSq solPoint p < (199 / 10000 : ℚ) ^ 2 → member p = true) :
    (∀ (L : List Listing) (r : Listing),
      r ∈ withinGeom member L → r ∈ L ∧ distSq solPoint (listingPt r) < (1 / 50 : ℚ) ^ 2) ∧
    (∀ (L : List Listing) (r : Listing),
      r ∈ L → distSq solPoint (listingPt r) < (199 / 10000 : ℚ) ^ 2 →
        r ∈ withinGeom member L) ∧
    nearListing ∈ withinGeom member [nearListing, farListing] ∧
    farListing ∉ withinGeom member [nearListing, farListing] := by
  have hmem : ∀ (L : List Listing) (r : Listing),
      r ∈ withinGeom member L ↔ r ∈ L ∧ member (listingPt r) = true := by
    intro L r
    simp [withinGeom, List.mem_filter]
  refine ⟨?_, ?_, ?_, ?_⟩
  · intro L r hr
    rcases (hmem L r).mp hr with ⟨hL, hm⟩
    exact ⟨hL, hsound _ hm⟩
  · intro L r hL hd
    exact (hmem L r).mpr ⟨hL, hcomplete _ hd⟩
  · refine (hmem _ _).mpr ⟨by simp, hcomplete _ ?_⟩
    norm_num [distSq, listingPt, solPoint, nearListing]
  · intro h
    rcases (hmem _ _).mp h with ⟨-, hm⟩
    have hlt := hsound _ hm
    norm_num [distSq, listingPt, solPoint, farListing] at hlt

/-- C2 witness: the open-disk idealisation satisfies both sandwich bounds, and
instantiating the amended theorem with it settles the two worked examples at
the concrete landmark and buffer distance of the source. -/
theorem c2_buffer_membership_sandwich_witness :
    nearListing ∈ withinGeom (pointBufferMember solPoint (1 / 50)) [nearListing, farListing] ∧
    farListing ∉ withinGeom (pointBufferMember solPoint (1 / 50)) [nearListing, farListing] := by
  have h := c2_buffer_membership_sandwich (pointBufferMember solPoint (1 / 50))
    (fun p hp => by rwa [pointBufferMember, decide_eq_true_eq] at hp)
    (fun p hp => by
      rw [pointBufferMember, decide_eq_true_eq]
      exact lt_trans hp (by norm_num))
  exact ⟨h.2.2.1, h.2.2.2⟩

end NYAirbnb
